import Mathlib

/-!
Shallow embedding of `src/dashboard.py` (a Flask system-monitor dashboard).

Conventions of the embedding:
* Python floats are modelled as `ℚ`; Python's `f"{x:.1f}"` / `f"{x:.2f}"`
  formatting is modelled as rounding `x * 10` (resp. `x * 100`) to the nearest
  integer and rendering one (resp. two) decimal digits.  This agrees with
  CPython on every value that is exactly representable at that precision and
  away from half-way ties.
* The rounding / floor arithmetic is implemented on `Rat.num` / `Rat.den`
  integer arithmetic so that it evaluates inside the kernel; the lemmas
  `roundTenths_eq`, `qdivNat_eq`, `floorDivNat_eq` and `modNat_eq` prove the
  implementations equal to the intended `round` / `⌊⌋` semantics.
* String manipulation (Python `split` / `strip` / `in`) is modelled on
  `List Char` with structural recursion, again for kernel evaluability.
* External effects (subprocess runs, psutil reads) are modelled as explicit
  `Except String _` inputs: `.ok v` is a successful call returning `v`,
  `.error e` is a raised exception whose `str()` is `e`.
-/

set_option maxRecDepth 8000

namespace Dashboard

/-- The `services` list of `DEFAULT_CONFIG` in `dashboard.py`. -/
def DEFAULT_SERVICES : List String :=
  ["nginx", "ssh", "docker", "postgresql", "redis"]

/-! ### Character-list string utilities (models of Python string methods) -/

/-- Whitespace as Python's `str.split()` / `str.strip()` see it (ASCII part). -/
def wsChar (c : Char) : Bool :=
  c == ' ' || c == '\t' || c == '\n' || c == '\r' || c == '\x0b' || c == '\x0c'

/-- Split a character list at every character satisfying `p`, keeping empty
pieces (the common core of Python `str.split(sep)`). -/
def splitPred (p : Char → Bool) : List Char → List (List Char)
  | [] => [[]]
  | c :: rest =>
      let r := splitPred p rest
      if p c then [] :: r
      else
        match r with
        | h :: t => (c :: h) :: t
        | [] => [[c]]

/-- Model of Python `s.split('\n')`. -/
def splitNl (l : List Char) : List (List Char) :=
  splitPred (· == '\n') l

/-- Model of Python `line.split()`: split on whitespace, dropping empty
pieces. -/
def tokenizeC (l : List Char) : List (List Char) :=
  (splitPred wsChar l).filter (fun t => !t.isEmpty)

/-- Drop characters satisfying `p` from both ends (Python `str.strip(chars)`
at the character-set level). -/
def stripEnds (p : Char → Bool) (l : List Char) : List Char :=
  ((l.dropWhile p).reverse.dropWhile p).reverse

/-- Model of Python `line.strip()`. -/
def trimC (l : List Char) : List Char := stripEnds wsChar l

/-- Model of Python `s.strip('()')`. -/
def stripParensC (l : List Char) : List Char :=
  stripEnds (fun c => c == '(' || c == ')') l

/-- `begins needle hay` is true when `needle` is an initial segment of
`hay`. -/
def begins : List Char → List Char → Bool
  | [], _ => true
  | _ :: _, [] => false
  | a :: as, b :: bs => a == b && begins as bs

/-- `containsSeg needle hay`: `needle` occurs contiguously in `hay` (model of
Python's `needle in hay` on strings). -/
def containsSeg (needle : List Char) : List Char → Bool
  | [] => needle.isEmpty
  | c :: rest => begins needle (c :: rest) || containsSeg needle rest

/-! ### Numeric formatting helpers (model of Python `f"{x:.1f}"`, `f"{x:.2f}"`)

Implemented on `num`/`den` so the kernel can evaluate them; `roundTenths_eq`
and `roundHundredths_eq` below prove them equal to `round (x * 10)` and
`round (x * 100)`. -/

/-- `round (x * 10)`, computed by integer arithmetic on `num`/`den`. -/
def roundTenths (x : ℚ) : ℤ :=
  (20 * x.num + x.den) / (2 * (x.den : ℤ))

/-- `round (x * 100)`, computed by integer arithmetic on `num`/`den`. -/
def roundHundredths (x : ℚ) : ℤ :=
  (200 * x.num + x.den) / (2 * (x.den : ℤ))

/-- Render `x` with one decimal digit: model of Python `f"{x:.1f}"`. -/
def fmt1 (x : ℚ) : String :=
  let t : ℤ := roundTenths x
  let n : ℕ := t.natAbs
  let base := toString (n / 10) ++ "." ++ toString (n % 10)
  if t < 0 then "-" ++ base else base

/-- Render `x` with two decimal digits: model of Python `f"{x:.2f}"`. -/
def fmt2 (x : ℚ) : String :=
  let t : ℤ := roundHundredths x
  let n : ℕ := t.natAbs
  let base := toString (n / 100) ++ "." ++ toString (n / 10 % 10) ++ toString (n % 10)
  if t < 0 then "-" ++ base else base

/-- One-decimal percentage with a trailing `%`, as in
`f"{info['cpu_percent']:.1f}%"` in `get_system_data`. -/
def fmtPct (x : ℚ) : String := fmt1 x ++ "%"

/-- Division of a rational by a positive natural, computed on `num`/`den`
(equal to `x / n`, see `qdivNat_eq`). -/
def qdivNat (x : ℚ) (n : ℕ) : ℚ :=
  Rat.divInt x.num ((x.den * n : ℕ) : ℤ)

/-- `⌊x / n⌋`, computed on `num`/`den` (see `floorDivNat_eq`). -/
def floorDivNat (x : ℚ) (n : ℕ) : ℤ :=
  x.num / ((x.den * n : ℕ) : ℤ)

/-- Python's float `x % n` (that is `x - n * ⌊x / n⌋`), computed on
`num`/`den` (see `modNat_eq`). -/
def modNat (x : ℚ) (n : ℕ) : ℚ :=
  Rat.divInt (x.num - (n : ℤ) * floorDivNat x n * (x.den : ℤ)) (x.den : ℤ)

/-! ### `format_bytes` (dashboard.py lines 125-130) -/

/-- Loop body of `format_bytes`: walk the unit list, returning at the first
unit where the magnitude is below 1024, else divide by 1024 and continue;
after the list is exhausted render in `PB` unconditionally. -/
def format_bytes_go : ℚ → List String → String
  | b, [] => fmt1 b ++ "PB"
  | b, unit :: units =>
      if b < 1024 then fmt1 b ++ unit else format_bytes_go (qdivNat b 1024) units

/-- Model of `format_bytes(bytes)`. -/
def format_bytes (b : ℚ) : String :=
  format_bytes_go b ["B", "KB", "MB", "GB", "TB"]

/-! ### `format_uptime` (dashboard.py lines 132-136)

Python's `//` and `%` on floats are `fun a b => ⌊a / b⌋` and
`fun a b => a - b * ⌊a / b⌋`; `int()` applied to the already-integral floor
value is the numeric identity, so floor division is a faithful model. -/

/-- Model of `format_uptime(seconds)`: `seconds // 86400` days,
`(seconds % 86400) // 3600` hours, `(seconds % 3600) // 60` minutes. -/
def format_uptime (seconds : ℚ) : String :=
  let days : ℤ := floorDivNat seconds 86400
  let hours : ℤ := floorDivNat (modNat seconds 86400) 3600
  let minutes : ℤ := floorDivNat (modNat seconds 3600) 60
  toString days ++ "d " ++ toString hours ++ "h " ++ toString minutes ++ "m"

/-! ### `get_service_status` (dashboard.py lines 78-111) -/

/-- The marker string `'Active:'` searched for in each line. -/
def activeMarker : List Char := "Active:".toList

/-- One iteration of the `for line in output.split('\n')` loop of
`get_service_status`, threading the `(active, sub)` state: strip the line;
if it contains `"Active:"`, token 1 becomes `active` and, when a token 2
exists, its parentheses-stripped form becomes `sub`. -/
def statusStep (st : String × String) (rawLine : List Char) : String × String :=
  let line := trimC rawLine
  if containsSeg activeMarker line then
    match tokenizeC line with
    | _ :: p1 :: p2 :: _ => (p1.asString, (stripParensC p2).asString)
    | [_, p1] => (p1.asString, st.2)
    | _ => st
  else st

/-- The parsing phase of `get_service_status`, over the list of lines of the
captured stdout, starting from `("unknown", "unknown")`. -/
def parseLines (lines : List (List Char)) : String × String :=
  lines.foldl statusStep ("unknown", "unknown")

/-- The parsing phase applied to raw stdout (`output.split('\n')`). -/
def parseActive (out : String) : String × String :=
  parseLines (splitNl out.toList)

/-- The dictionary `{'name': ..., 'active': ..., 'sub': ...}` returned by
`get_service_status`. -/
structure ServiceStatus where
  name : String
  active : String
  sub : String
deriving DecidableEq

/-- Model of `get_service_status(service_name)`.  `query` is the outcome of
the `subprocess.run(['systemctl', 'status', service_name], ...)` call:
`.ok stdout` when it ran, `.error e` when it raised (timeout, missing
binary, ...), with `e` the `str()` of the exception; the `except` branch
returns `active='error'`, `sub=str(e)[:20]`. -/
def get_service_status (service_name : String) (query : Except String String) :
    ServiceStatus :=
  match query with
  | .ok out =>
      let p := parseActive out
      ⟨service_name, p.1, p.2⟩
  | .error e => ⟨service_name, "error", e.take 20⟩

/-! ### `get_service_logs` (dashboard.py lines 113-123) and the
`/api/logs/<service_name>` route (lines 216-224)

`get_service_logs` runs `journalctl` and returns its stdout, or the string
`"Error fetching logs: " ++ str(e)` when the call raised.  We thread an
explicit trace of the `journalctl` invocations (pairs `(unit, lines)`) to
make "the external log subsystem was invoked" a provable statement. -/

/-- Model of `get_service_logs(service_name, lines)`.  `oracle` gives the
outcome of the `subprocess.run(['journalctl', ...])` call; the second
component is the trace of external log-subsystem invocations this call
performs. -/
def get_service_logs (service_name : String) (lines : ℕ)
    (oracle : String → ℕ → Except String String) :
    String × List (String × ℕ) :=
  (match oracle service_name lines with
    | .ok out => out
    | .error e => "Error fetching logs: " ++ e,
   [(service_name, lines)])

/-- The JSON object returned by the `/api/logs/<service_name>` route. -/
structure LogResponse where
  service : String
  logs : String
deriving DecidableEq

/-- Model of the `api_logs(service_name)` handler body (after the auth
decorator): it first calls `get_service_logs(service_name, lines)`, and only
then tests `service_name in SERVICES`, returning the fetched logs for
members and the constant `{'service': 'not allowed', 'logs': 'not allowed'}`
otherwise.  The second component is the trace of log-subsystem
invocations. -/
def api_logs (services : List String) (service_name : String) (lines : ℕ)
    (oracle : String → ℕ → Except String String) :
    LogResponse × List (String × ℕ) :=
  let r := get_service_logs service_name lines oracle
  if service_name ∈ services then
    (⟨service_name, r.1⟩, r.2)
  else
    (⟨"not allowed", "not allowed"⟩, r.2)

/-! ### Top processes (dashboard.py lines 170-184) -/

/-- The `proc.info` dictionary requested from
`psutil.process_iter(['pid', 'name', 'cpu_percent', 'memory_percent',
'username'])`. -/
structure ProcInfo where
  pid : ℤ
  name : String
  cpu_percent : ℚ
  memory_percent : ℚ
  username : String
deriving DecidableEq

/-- The two exception classes caught (and silently skipped) inside the
process loop; any other exception (`other`) propagates out of
`get_system_data`. -/
inductive PErr where
  | noSuchProcess : PErr
  | accessDenied : PErr
  | other : String → PErr
deriving DecidableEq

/-- One element of the `top_processes` list. -/
structure ProcEntry where
  pid : ℤ
  name : String
  cpu : String
  mem : String
  user : String
deriving DecidableEq

/-- The dictionary appended for one process: `name[:30]`,
`f"{cpu_percent:.1f}%"`, `f"{memory_percent:.1f}%"`, `username[:15]`. -/
def mkEntry (p : ProcInfo) : ProcEntry :=
  { pid := p.pid
    name := p.name.take 30
    cpu := fmtPct p.cpu_percent
    mem := fmtPct p.memory_percent
    user := p.username.take 15 }

/-- Digit-string value, `foldl (fun a c => 10 * a + digit c) 0`. -/
def digitsVal (l : List Char) : ℕ :=
  l.foldl (fun a c => a * 10 + (c.toNat - 48)) 0

/-- Model of `float(x['cpu'].strip('%'))` — the sort key of the
top-process list.  It parses the non-negative decimal strings produced by
`fmtPct` (strip `%` from both ends, then value of `intpart.fracpart`);
other shapes do not occur in the program. -/
def parseCpu (s : String) : ℚ :=
  let t := stripEnds (· == '%') s.toList
  match splitPred (· == '.') t with
  | [i] => Rat.divInt (digitsVal i) 1
  | [i, f] => Rat.divInt (digitsVal i * 10 ^ f.length + digitsVal f) (10 ^ f.length)
  | _ => 0

/-- The loop `for proc in psutil.process_iter(...)`: build an entry per
process, silently skipping `NoSuchProcess` / `AccessDenied`, propagating any
other exception. -/
def buildEntries : List (Except PErr ProcInfo) → Except String (List ProcEntry)
  | [] => .ok []
  | .ok p :: rest => (buildEntries rest).map (mkEntry p :: ·)
  | .error .noSuchProcess :: rest => buildEntries rest
  | .error .accessDenied :: rest => buildEntries rest
  | .error (.other e) :: _ => .error e

/-- The order used by
`sorted(..., key=lambda x: float(x['cpu'].strip('%')), reverse=True)`:
`a` may come before `b` when `a`'s key is at least `b`'s.  Python's `sorted`
is stable, and a stable insertion sort with this relation realises exactly
its semantics. -/
def procBefore (a b : ProcEntry) : Prop :=
  parseCpu b.cpu ≤ parseCpu a.cpu

instance : DecidableRel procBefore :=
  fun a b => inferInstanceAs (Decidable (parseCpu b.cpu ≤ parseCpu a.cpu))

instance : IsTotal ProcEntry procBefore :=
  ⟨fun a b => le_total (parseCpu b.cpu) (parseCpu a.cpu)⟩

instance : IsTrans ProcEntry procBefore :=
  ⟨fun _ _ _ h1 h2 => le_trans h2 h1⟩

/-- `sorted(top_processes, key=..., reverse=True)[:10]`. -/
def sortTake (l : List ProcEntry) : List ProcEntry :=
  (List.insertionSort procBefore l).take 10

/-- The whole top-process pipeline of `get_system_data`. -/
def topProcesses (l : List (Except PErr ProcInfo)) : Except String (List ProcEntry) :=
  (buildEntries l).map sortTake

/-- Sort key of a built entry, `float(x['cpu'].strip('%'))`. -/
def entryKey (en : ProcEntry) : ℚ := parseCpu en.cpu

/-! ### `get_system_data` (dashboard.py lines 138-204) -/

/-- Result of `psutil.virtual_memory()`. -/
structure MemStats where
  total : ℕ
  used : ℕ
  available : ℕ
  percent : ℚ
deriving DecidableEq

/-- Result of `psutil.disk_usage('/')`. -/
structure DiskStats where
  total : ℕ
  used : ℕ
  free : ℕ
  percent : ℚ
deriving DecidableEq

/-- Result of `psutil.net_io_counters()`. -/
structure NetStats where
  bytes_sent : ℕ
  bytes_recv : ℕ
deriving DecidableEq

/-- The host-state inputs of one `get_system_data()` call.  Each psutil read
is an `Except`: `.error e` models the call raising an exception (which the
function does not catch).  `query` gives, per service name, the outcome of
that service's `systemctl status` subprocess call. -/
structure Env where
  cpu_percent : Except String ℚ
  cpu_count : Except String ℕ
  loadavg : Except String (ℚ × ℚ × ℚ)
  mem : Except String MemStats
  disk : Except String DiskStats
  net : Except String NetStats
  boot_time : Except String ℚ
  now : ℚ
  timestamp : String
  procs : Except String (List (Except PErr ProcInfo))
  query : String → Except String String

/-- The dictionary returned by `get_system_data`. -/
structure Snapshot where
  timestamp : String
  cpu_percent : ℚ
  cpu_count : ℕ
  load_avg : String
  mem_total : String
  mem_used : String
  mem_available : String
  mem_percent : ℚ
  disk_total : String
  disk_used : String
  disk_free : String
  disk_percent : ℚ
  net_sent : String
  net_recv : String
  uptime : String
  services : List ServiceStatus
  top_processes : List ProcEntry

/-- Model of `get_system_data()`, in source order: CPU, memory, disk,
network, uptime (boot time), services (one `get_service_status` per entry of
`SERVICES`, which never raises), then the process loop.  An exception in any
psutil read propagates: no snapshot is produced. -/
def get_system_data (services : List String) (env : Env) :
    Except String Snapshot := do
  let cpu ← env.cpu_percent
  let cnt ← env.cpu_count
  let la ← env.loadavg
  let mem ← env.mem
  let disk ← env.disk
  let net ← env.net
  let boot ← env.boot_time
  let svc := services.map (fun s => get_service_status s (env.query s))
  let procList ← env.procs
  let entries ← buildEntries procList
  .ok
    { timestamp := env.timestamp
      cpu_percent := cpu
      cpu_count := cnt
      load_avg := fmt2 la.1 ++ ", " ++ fmt2 la.2.1 ++ ", " ++ fmt2 la.2.2
      mem_total := format_bytes mem.total
      mem_used := format_bytes mem.used
      mem_available := format_bytes mem.available
      mem_percent := mem.percent
      disk_total := format_bytes disk.total
      disk_used := format_bytes disk.used
      disk_free := format_bytes disk.free
      disk_percent := disk.percent
      net_sent := format_bytes net.bytes_sent
      net_recv := format_bytes net.bytes_recv
      uptime := format_uptime (env.now - boot)
      services := svc
      top_processes := sortTake entries }

/-! ### Concrete host states used to exercise the theorems -/

/-- A host state in which every psutil read succeeds and every `systemctl`
query raises. -/
def envAllOk : Env :=
  ⟨.ok 1, .ok 4, .ok (1, 1, 1), .ok ⟨1, 1, 1, 1⟩, .ok ⟨2, 1, 1, 1⟩, .ok ⟨1, 1⟩,
    .ok 0, 5, "ts", .ok [], fun _ => .error "no systemctl"⟩

/-- The snapshot `get_system_data` builds from `envAllOk`. -/
def snapAllOk : Snapshot :=
  { timestamp := "ts"
    cpu_percent := 1
    cpu_count := 4
    load_avg := fmt2 1 ++ ", " ++ fmt2 1 ++ ", " ++ fmt2 1
    mem_total := format_bytes ((1 : ℕ) : ℚ)
    mem_used := format_bytes ((1 : ℕ) : ℚ)
    mem_available := format_bytes ((1 : ℕ) : ℚ)
    mem_percent := 1
    disk_total := format_bytes ((2 : ℕ) : ℚ)
    disk_used := format_bytes ((1 : ℕ) : ℚ)
    disk_free := format_bytes ((1 : ℕ) : ℚ)
    disk_percent := 1
    net_sent := format_bytes ((1 : ℕ) : ℚ)
    net_recv := format_bytes ((1 : ℕ) : ℚ)
    uptime := format_uptime (5 - 0)
    services := DEFAULT_SERVICES.map (fun s => get_service_status s (.error "no systemctl"))
    top_processes := sortTake [] }

/-- A host state whose CPU read raises. -/
def envCpuFail : Env :=
  ⟨.error "cpu read failed", .ok 4, .ok (1, 1, 1), .ok ⟨1, 1, 1, 1⟩,
    .ok ⟨2, 1, 1, 1⟩, .ok ⟨1, 1⟩, .ok 0, 5, "ts", .ok [], fun _ => .ok ""⟩

/-- Fifteen processes with pairwise distinct raw CPU percentages, of which the
two largest (`5.01` and `5.02`) collide once formatted to one decimal. -/
def cexProcs : List ProcInfo :=
  [⟨1, "procA", mkRat 501 100, 1, "root"⟩,
   ⟨2, "procB", mkRat 251 50, 1, "root"⟩,
   ⟨3, "p03", mkRat 49 10, 1, "root"⟩,
   ⟨4, "p04", mkRat 24 5, 1, "root"⟩,
   ⟨5, "p05", mkRat 47 10, 1, "root"⟩,
   ⟨6, "p06", mkRat 23 5, 1, "root"⟩,
   ⟨7, "p07", mkRat 9 2, 1, "root"⟩,
   ⟨8, "p08", mkRat 22 5, 1, "root"⟩,
   ⟨9, "p09", mkRat 43 10, 1, "root"⟩,
   ⟨10, "p10", mkRat 21 5, 1, "root"⟩,
   ⟨11, "p11", mkRat 41 10, 1, "root"⟩,
   ⟨12, "p12", 4, 1, "root"⟩,
   ⟨13, "p13", mkRat 39 10, 1, "root"⟩,
   ⟨14, "p14", mkRat 19 5, 1, "root"⟩,
   ⟨15, "p15", mkRat 37 10, 1, "root"⟩]

/-- Fifteen processes whose one-decimal-formatted CPU percentages are
pairwise distinct. -/
def wProcs : List ProcInfo :=
  [⟨1, "q01", 15, 1, "root"⟩, ⟨2, "q02", 14, 1, "root"⟩, ⟨3, "q03", 13, 1, "root"⟩,
   ⟨4, "q04", 12, 1, "root"⟩, ⟨5, "q05", 11, 1, "root"⟩, ⟨6, "q06", 10, 1, "root"⟩,
   ⟨7, "q07", 9, 1, "root"⟩, ⟨8, "q08", 8, 1, "root"⟩, ⟨9, "q09", 7, 1, "root"⟩,
   ⟨10, "q10", 6, 1, "root"⟩, ⟨11, "q11", 5, 1, "root"⟩, ⟨12, "q12", 4, 1, "root"⟩,
   ⟨13, "q13", 3, 1, "root"⟩, ⟨14, "q14", 2, 1, "root"⟩, ⟨15, "q15", 1, 1, "root"⟩]

/-! ### Faithfulness of the `num`/`den` arithmetic -/

lemma div_nat_num_den (x : ℚ) (n : ℕ) :
    x / (n : ℚ) = (x.num : ℚ) / (((x.den * n : ℕ)) : ℚ) := by
  conv_lhs => rw [← Rat.num_div_den x]
  rw [div_div]
  push_cast
  ring_nf

lemma qdivNat_eq (x : ℚ) (n : ℕ) : qdivNat x n = x / n := by
  rw [qdivNat, Rat.divInt_eq_div, div_nat_num_den]
  push_cast
  ring_nf

lemma floorDivNat_eq (x : ℚ) (n : ℕ) : floorDivNat x n = ⌊x / n⌋ := by
  rw [floorDivNat, div_nat_num_den, Rat.floor_intCast_div_natCast]

lemma modNat_eq (x : ℚ) (n : ℕ) : modNat x n = x - n * ⌊x / n⌋ := by
  have hd : (x.den : ℚ) ≠ 0 := Nat.cast_ne_zero.mpr x.den_ne_zero
  rw [modNat, floorDivNat_eq, Rat.divInt_eq_div]
  generalize ⌊x / (n : ℚ)⌋ = k
  push_cast
  conv_rhs => rw [← Rat.num_div_den x]
  field_simp
  ring

lemma roundTenths_eq (x : ℚ) : roundTenths x = round (x * 10) := by
  have hd : (x.den : ℚ) ≠ 0 := Nat.cast_ne_zero.mpr x.den_ne_zero
  have h : x * 10 + 1 / 2 = ((20 * x.num + x.den : ℤ) : ℚ) / (((2 * x.den : ℕ)) : ℚ) := by
    conv_lhs => rw [← Rat.num_div_den x]
    push_cast
    field_simp
    ring
  rw [round_eq, roundTenths, h, Rat.floor_intCast_div_natCast]
  push_cast
  ring_nf

lemma roundHundredths_eq (x : ℚ) : roundHundredths x = round (x * 100) := by
  have hd : (x.den : ℚ) ≠ 0 := Nat.cast_ne_zero.mpr x.den_ne_zero
  have h : x * 100 + 1 / 2 = ((200 * x.num + x.den : ℤ) : ℚ) / (((2 * x.den : ℕ)) : ℚ) := by
    conv_lhs => rw [← Rat.num_div_den x]
    push_cast
    field_simp
    ring
  rw [round_eq, roundHundredths, h, Rat.floor_intCast_div_natCast]
  push_cast
  ring_nf

/-! ### Helper lemmas about the status parser -/

lemma statusStep_no_marker {st : String × String} {l : List Char}
    (h : containsSeg activeMarker (trimC l) = false) : statusStep st l = st := by
  simp [statusStep, h]

lemma foldl_statusStep_const (st : String × String) (lines : List (List Char))
    (h : ∀ l ∈ lines, containsSeg activeMarker (trimC l) = false) :
    lines.foldl statusStep st = st := by
  induction lines with
  | nil => rfl
  | cons l ls ih =>
      rw [List.foldl_cons, statusStep_no_marker (h l (by simp))]
      exact ih (fun x hx => h x (by simp [hx]))

lemma statusStep_three {st : String × String} {l p0 p1 p2 : List Char}
    {rest : List (List Char)}
    (hm : containsSeg activeMarker (trimC l) = true)
    (ht : tokenizeC (trimC l) = p0 :: p1 :: p2 :: rest) :
    statusStep st l = (p1.asString, (stripParensC p2).asString) := by
  simp [statusStep, hm, ht]

lemma statusStep_two {st : String × String} {l p0 p1 : List Char}
    (hm : containsSeg activeMarker (trimC l) = true)
    (ht : tokenizeC (trimC l) = [p0, p1]) :
    statusStep st l = (p1.asString, st.2) := by
  simp [statusStep, hm, ht]

lemma get_service_status_name (n : String) (q : Except String String) :
    (get_service_status n q).name = n := by
  cases q <;> rfl

/-! ### Helper lemmas about the top-process pipeline -/

lemma buildEntries_map_ok (raw : List ProcInfo) :
    buildEntries (raw.map Except.ok) = .ok (raw.map mkEntry) := by
  induction raw with
  | nil => rfl
  | cons p ps ih => simp [buildEntries, ih, Except.map]

lemma buildEntries_mem {l : List (Except PErr ProcInfo)} {entries : List ProcEntry}
    (h : buildEntries l = .ok entries) :
    ∀ en ∈ entries, ∃ p, Except.ok p ∈ l ∧ en = mkEntry p := by
  induction l generalizing entries with
  | nil =>
      simp only [buildEntries, Except.ok.injEq] at h
      subst h
      simp
  | cons a rest ih =>
      cases a with
      | ok p =>
          cases hb : buildEntries rest with
          | error e => simp [buildEntries, hb, Except.map] at h
          | ok es =>
              simp only [buildEntries, hb, Except.map, Except.ok.injEq] at h
              subst h
              intro en hen
              rcases List.mem_cons.mp hen with rfl | hmem
              · exact ⟨p, by simp, rfl⟩
              · obtain ⟨p', hp', he⟩ := ih hb en hmem
                exact ⟨p', by simp [hp'], he⟩
      | error pe =>
          cases pe with
          | noSuchProcess =>
              intro en hen
              obtain ⟨p, hp, he⟩ := ih (by simpa [buildEntries] using h) en hen
              exact ⟨p, by simp [hp], he⟩
          | accessDenied =>
              intro en hen
              obtain ⟨p, hp, he⟩ := ih (by simpa [buildEntries] using h) en hen
              exact ⟨p, by simp [hp], he⟩
          | other m => simp [buildEntries] at h

lemma sortTake_mem {l : List ProcEntry} : ∀ en ∈ sortTake l, en ∈ l := by
  intro en hen
  have h1 : en ∈ List.insertionSort procBefore l :=
    (List.take_sublist 10 _).subset hen
  exact (List.perm_insertionSort procBefore l).mem_iff.mp h1

lemma sortTake_sorted (l : List ProcEntry) :
    ((sortTake l).map entryKey).Pairwise (· ≥ ·) := by
  have hs : (List.insertionSort procBefore l).Pairwise procBefore :=
    List.sorted_insertionSort procBefore l
  have ht : (sortTake l).Pairwise procBefore :=
    List.Pairwise.sublist (List.take_sublist 10 _) hs
  exact List.pairwise_map.mpr (ht.imp (fun h => h))

lemma sortTake_strict (l : List ProcEntry) (h : (l.map entryKey).Nodup) :
    ((sortTake l).map entryKey).Pairwise (· > ·) := by
  have hge := sortTake_sorted l
  have hperm :
      List.Perm ((List.insertionSort procBefore l).map entryKey) (l.map entryKey) :=
    (List.perm_insertionSort procBefore l).map entryKey
  have hnd : ((List.insertionSort procBefore l).map entryKey).Nodup :=
    hperm.nodup_iff.mpr h
  have hnd2 : ((sortTake l).map entryKey).Nodup :=
    hnd.sublist ((List.take_sublist 10 _).map entryKey)
  exact (hge.and hnd2).imp (fun hp => lt_of_le_of_ne hp.1 hp.2.symm)

lemma sortTake_length_eq (l : List ProcEntry) (h : l.length = 15) :
    (sortTake l).length = 10 := by
  simp [sortTake, List.length_take, List.length_insertionSort, h]

lemma buildEntries_skip (e : PErr)
    (he : e = PErr.noSuchProcess ∨ e = PErr.accessDenied)
    (l₁ l₂ : List (Except PErr ProcInfo)) :
    buildEntries (l₁ ++ .error e :: l₂) = buildEntries (l₁ ++ l₂) := by
  induction l₁ with
  | nil => rcases he with rfl | rfl <;> rfl
  | cons a l₁ ih =>
      cases a with
      | ok p => simp [buildEntries, ih]
      | error pe => cases pe <;> simp [buildEntries, ih]

lemma sortTake_length_le (l : List ProcEntry) : (sortTake l).length ≤ 10 := by
  simp [sortTake, List.length_take]

/-! ### Casts of the floor arithmetic at natural inputs -/

lemma floorDivNat_natCast (a k : ℕ) : floorDivNat (a : ℚ) k = ((a / k : ℕ) : ℤ) := by
  rw [floorDivNat_eq, show ((a : ℚ)) = (((a : ℤ) : ℚ)) from by push_cast; ring,
    Rat.floor_intCast_div_natCast]
  exact_mod_cast rfl

lemma modNat_natCast (a k : ℕ) : modNat (a : ℚ) k = ((a % k : ℕ) : ℚ) := by
  rw [modNat_eq,
    show ⌊(a : ℚ) / (k : ℚ)⌋ = ((a / k : ℕ) : ℤ) from by
      rw [← floorDivNat_eq, floorDivNat_natCast]]
  have h := Nat.div_add_mod a k
  generalize hm : a / k = m at *
  generalize hr : a % k = r at *
  have h' : (k : ℚ) * m + r = a := by exact_mod_cast congrArg (Nat.cast : ℕ → ℚ) h
  push_cast
  linarith

lemma toString_intCast (m : ℕ) : toString ((m : ℕ) : ℤ) = toString m := rfl

/-! ### Helper lemmas about `get_system_data` -/

lemma get_system_data_ok {services : List String} {env : Env} {snap : Snapshot}
    (h : get_system_data services env = .ok snap) :
    ∃ c cnt la mem disk net boot procList entries,
      env.cpu_percent = .ok c ∧ env.cpu_count = .ok cnt ∧ env.loadavg = .ok la ∧
      env.mem = .ok mem ∧ env.disk = .ok disk ∧ env.net = .ok net ∧
      env.boot_time = .ok boot ∧ env.procs = .ok procList ∧
      buildEntries procList = .ok entries ∧
      snap.services = services.map (fun s => get_service_status s (env.query s)) ∧
      snap.top_processes = sortTake entries := by
  obtain ⟨c, cnt, la, mem, disk, net, boot, now, ts, pr, q⟩ := env
  rcases c with e | c
  · simp [get_system_data, Bind.bind, Except.bind] at h
  rcases cnt with e | cnt
  · simp [get_system_data, Bind.bind, Except.bind] at h
  rcases la with e | la
  · simp [get_system_data, Bind.bind, Except.bind] at h
  rcases mem with e | mem
  · simp [get_system_data, Bind.bind, Except.bind] at h
  rcases disk with e | disk
  · simp [get_system_data, Bind.bind, Except.bind] at h
  rcases net with e | net
  · simp [get_system_data, Bind.bind, Except.bind] at h
  rcases boot with e | boot
  · simp [get_system_data, Bind.bind, Except.bind] at h
  rcases pr with e | pr
  · simp [get_system_data, Bind.bind, Except.bind] at h
  rcases hb : buildEntries pr with e | entries
  · simp [get_system_data, Bind.bind, Except.bind, hb] at h
  · simp only [get_system_data, Bind.bind, Except.bind, hb, Except.ok.injEq] at h
    subst h
    exact ⟨c, cnt, la, mem, disk, net, boot, pr, entries,
      rfl, rfl, rfl, rfl, rfl, rfl, rfl, rfl, hb, rfl, rfl⟩

lemma get_system_data_all_ok (services : List String)
    (c : ℚ) (cnt : ℕ) (la : ℚ × ℚ × ℚ) (mem : MemStats) (disk : DiskStats)
    (net : NetStats) (boot now : ℚ) (ts : String)
    (procList : List (Except PErr ProcInfo)) (entries : List ProcEntry)
    (q : String → Except String String)
    (hb : buildEntries procList = .ok entries) :
    get_system_data services
        ⟨.ok c, .ok cnt, .ok la, .ok mem, .ok disk, .ok net, .ok boot,
          now, ts, .ok procList, q⟩ =
      .ok
        { timestamp := ts
          cpu_percent := c
          cpu_count := cnt
          load_avg := fmt2 la.1 ++ ", " ++ fmt2 la.2.1 ++ ", " ++ fmt2 la.2.2
          mem_total := format_bytes mem.total
          mem_used := format_bytes mem.used
          mem_available := format_bytes mem.available
          mem_percent := mem.percent
          disk_total := format_bytes disk.total
          disk_used := format_bytes disk.used
          disk_free := format_bytes disk.free
          disk_percent := disk.percent
          net_sent := format_bytes net.bytes_sent
          net_recv := format_bytes net.bytes_recv
          uptime := format_uptime (now - boot)
          services := services.map (fun s => get_service_status s (q s))
          top_processes := sortTake entries } := by
  simp [get_system_data, Bind.bind, Except.bind, hb]

/-! ## Claim theorems -/

/-- C10: for every input service name, `get_service_status` returns a record
with exactly the three fields `name`, `active`, `sub` (the `ServiceStatus`
shape), whose `name` field equals the input name, in both the
successful-parse branch and the exception branch. -/
theorem c10_status_record_shape :
    ∀ (name : String) (query : Except String String),
      ∃ a s, get_service_status name query = ⟨name, a, s⟩ := by
  intro n q
  cases q with
  | ok out => exact ⟨_, _, rfl⟩
  | error e => exact ⟨_, _, rfl⟩

/-- C2: whenever `get_system_data` produces a snapshot, its `services` field
has exactly one `ServiceStatus` per allow-listed name, in allow-list order
(hence exactly `len(SERVICES)` entries), regardless of the outcome of each
individual service query (the query outcomes in `env.query` are
unconstrained). -/
theorem c2_services_length_order :
    ∀ (services : List String) (env : Env) (snap : Snapshot),
      get_system_data services env = .ok snap →
      snap.services.length = services.length ∧
      snap.services.map ServiceStatus.name = services := by
  intro s env snap h
  obtain ⟨c, cnt, la, mem, disk, net, boot, pr, entries,
    _, _, _, _, _, _, _, _, _, hsvc, _⟩ := get_system_data_ok h
  rw [hsvc]
  refine ⟨by simp, ?_⟩
  rw [List.map_map]
  have hf : ServiceStatus.name ∘ (fun t => get_service_status t (env.query t)) = id := by
    funext t
    exact get_service_status_name t (env.query t)
  rw [hf, List.map_id]

/-- C2 witness: a concrete all-readings-succeed host state with every
service query failing still yields one entry per allow-listed name, in
order. -/
theorem c2_services_length_order_witness :
    snapAllOk.services.length = DEFAULT_SERVICES.length ∧
    snapAllOk.services.map ServiceStatus.name = DEFAULT_SERVICES :=
  c2_services_length_order DEFAULT_SERVICES envAllOk snapAllOk rfl

/-- C6: if any psutil metrics read (CPU percentage, core count, load average,
memory, disk, network, boot time, process enumeration) fails, the whole
`get_system_data` call fails: no partial snapshot is produced and the error
propagates to the caller. -/
theorem c6_metric_failure_fatal :
    ∀ (services : List String) (env : Env),
      (env.cpu_percent.isOk = false ∨ env.cpu_count.isOk = false ∨
       env.loadavg.isOk = false ∨ env.mem.isOk = false ∨
       env.disk.isOk = false ∨ env.net.isOk = false ∨
       env.boot_time.isOk = false ∨ env.procs.isOk = false) →
      ∃ e, get_system_data services env = .error e := by
  intro s env hfail
  cases hres : get_system_data s env with
  | error e => exact ⟨e, rfl⟩
  | ok snap =>
      exfalso
      obtain ⟨c, cnt, la, mem, disk, net, boot, pr, entries,
        h1, h2, h3, h4, h5, h6, h7, h8, _, _, _⟩ := get_system_data_ok hres
      rcases hfail with h | h | h | h | h | h | h | h <;>
        simp [h1, h2, h3, h4, h5, h6, h7, h8, Except.isOk, Except.toBool] at h

/-- C6 witness: with a failing CPU read (everything else fine), the call
returns an error. -/
theorem c6_metric_failure_fatal_witness :
    ∃ e, get_system_data DEFAULT_SERVICES envCpuFail = .error e :=
  c6_metric_failure_fatal DEFAULT_SERVICES envCpuFail (Or.inl rfl)

/-- C7: a failing `systemctl` query (timeout, missing binary, any exception
`e`) is absorbed inside `get_service_status` as `active='error'`,
`sub=str(e)[:20]`; output with no `Active:` line gives
`active='unknown'`, `sub='unknown'`; and such degraded statuses never make
the containing `get_system_data` call fail: with all metric reads succeeding
it returns a snapshot whatever each service query did. -/
theorem c7_service_error_absorbed :
    (∀ (name e : String),
      get_service_status name (.error e) = ⟨name, "error", e.take 20⟩) ∧
    (∀ (name out : String),
      (∀ l ∈ splitNl out.toList, containsSeg activeMarker (trimC l) = false) →
      get_service_status name (.ok out) = ⟨name, "unknown", "unknown"⟩) ∧
    (∀ (services : List String) (c : ℚ) (cnt : ℕ) (la : ℚ × ℚ × ℚ)
      (mem : MemStats) (disk : DiskStats) (net : NetStats) (boot now : ℚ)
      (ts : String) (procList : List (Except PErr ProcInfo))
      (entries : List ProcEntry) (q : String → Except String String),
      buildEntries procList = .ok entries →
      ∃ snap,
        get_system_data services
            ⟨.ok c, .ok cnt, .ok la, .ok mem, .ok disk, .ok net, .ok boot,
              now, ts, .ok procList, q⟩ = .ok snap ∧
        snap.services = services.map (fun s => get_service_status s (q s))) := by
  refine ⟨fun n e => rfl, ?_, ?_⟩
  · intro n out h
    simp only [get_service_status]
    rw [show parseActive out = ("unknown", "unknown") from
      foldl_statusStep_const _ _ h]
  · intro services c cnt la mem disk net boot now ts procList entries q hb
    exact ⟨_, get_system_data_all_ok services c cnt la mem disk net boot now ts
      procList entries q hb, rfl⟩

/-- C7 witness: concrete degraded statuses inside a successful snapshot. -/
theorem c7_service_error_absorbed_witness :
    get_service_status "redis" (.ok "Unit redis could not be found.\n") =
      ⟨"redis", "unknown", "unknown"⟩ ∧
    ∃ snap,
      get_system_data DEFAULT_SERVICES
          ⟨.ok 1, .ok 4, .ok (1, 1, 1), .ok ⟨1, 1, 1, 1⟩, .ok ⟨2, 1, 1, 1⟩,
            .ok ⟨1, 1⟩, .ok 0, 5, "ts", .ok [],
            fun _ => .error "systemctl missing"⟩ = .ok snap ∧
      snap.services = DEFAULT_SERVICES.map
        (fun s => get_service_status s (.error "systemctl missing")) :=
  ⟨c7_service_error_absorbed.2.1 "redis" "Unit redis could not be found.\n"
      (by decide),
   c7_service_error_absorbed.2.2 DEFAULT_SERVICES 1 4 (1, 1, 1) ⟨1, 1, 1, 1⟩
      ⟨2, 1, 1, 1⟩ ⟨1, 1⟩ 0 5 "ts" [] [] (fun _ => .error "systemctl missing") rfl⟩

/-- C9: for a service name outside the allow-list, the response of the logs
endpoint is the constant pair `service='not allowed'`, `logs='not allowed'`,
independent of whatever the external log query returned: two runs differing
only in the fetched log content produce identical responses, so no log
content for a disallowed service can appear in the response. -/
theorem c9_disallowed_response_constant :
    ∀ (services : List String) (name : String) (lines : ℕ)
      (o1 o2 : String → ℕ → Except String String),
      name ∉ services →
      (api_logs services name lines o1).1 = (api_logs services name lines o2).1 ∧
      (api_logs services name lines o1).1 = ⟨"not allowed", "not allowed"⟩ := by
  intro s n l o1 o2 h
  constructor <;> simp [api_logs, get_service_logs, h]

/-- C9 witness: for the non-allow-listed name `evil`, two runs whose log
subsystem returns different secrets give the same sentinel response. -/
theorem c9_disallowed_response_constant_witness :
    (api_logs DEFAULT_SERVICES "evil" 100 (fun _ _ => .ok "secret A")).1 =
      (api_logs DEFAULT_SERVICES "evil" 100 (fun _ _ => .ok "secret B")).1 ∧
    (api_logs DEFAULT_SERVICES "evil" 100 (fun _ _ => .ok "secret A")).1 =
      ⟨"not allowed", "not allowed"⟩ :=
  ⟨(c9_disallowed_response_constant DEFAULT_SERVICES "evil" 100
      (fun _ _ => .ok "secret A") (fun _ _ => .ok "secret B") (by decide)).1,
   (c9_disallowed_response_constant DEFAULT_SERVICES "evil" 100
      (fun _ _ => .ok "secret A") (fun _ _ => .ok "secret B") (by decide)).2⟩

/-- C1: the `api_logs` handler calls `get_service_logs` — and hence the
external log subsystem — for EVERY request, before testing membership in
`SERVICES`: the invocation trace is `[(name, lines)]` for all inputs, and in
particular the disallowed name `evil` still triggers a `journalctl`
invocation even though the response is the sentinel.  This exhibits, on the
code, the failure of the claim that the allow-list check happens before any
external call. -/
theorem c1_log_subsystem_invoked_before_check :
    ("evil" ∉ DEFAULT_SERVICES) ∧
    (∀ (services : List String) (name : String) (lines : ℕ)
      (oracle : String → ℕ → Except String String),
      (api_logs services name lines oracle).2 = [(name, lines)]) ∧
    (api_logs DEFAULT_SERVICES "evil" 100 (fun _ _ => .ok "journal text")).1 =
      ⟨"not allowed", "not allowed"⟩ ∧
    (api_logs DEFAULT_SERVICES "evil" 100 (fun _ _ => .ok "journal text")).2 =
      [("evil", 100)] := by
  refine ⟨by decide, ?_, by decide, by decide⟩
  intro s n l o
  by_cases h : n ∈ s <;> simp [api_logs, get_service_logs, h]

/-- C8: `format_uptime` decomposes a seconds value into whole days, hours
and minutes (seconds discarded — days `s // 86400`, hours
`s % 86400 // 3600`, minutes `s % 3600 // 60`) rendered as
`"{d}d {h}h {m}m"`; in particular 90061 seconds formats to `"1d 1h 1m"`. -/
theorem c8_format_uptime :
    (∀ n : ℕ, format_uptime (n : ℚ) =
      toString (n / 86400) ++ "d " ++ toString (n % 86400 / 3600) ++ "h " ++
        toString (n % 3600 / 60) ++ "m") ∧
    format_uptime 90061 = "1d 1h 1m" := by
  refine ⟨?_, by decide⟩
  intro n
  simp only [format_uptime, modNat_natCast, floorDivNat_natCast, toString_intCast]

/-- C5: `format_bytes` divides repeatedly by 1024 and selects the first unit
in `B, KB, MB, GB, TB, PB` where the running magnitude is below 1024,
rendering one decimal place; magnitudes of 1024 PB or more are still
rendered in PB (no further check).  In particular `format(0) = "0.0B"`,
`format(1023) = "1023.0B"`, `format(1024) = "1.0KB"`,
`format(1536) = "1.5KB"`, `format(1024^4) = "1.0TB"`. -/
theorem c5_format_bytes :
    (∀ x : ℚ, qdivNat x 1024 = x / 1024) ∧
    (∀ q : ℚ,
      (q < 1024 → format_bytes q = fmt1 q ++ "B") ∧
      (¬ q < 1024 → qdivNat q 1024 < 1024 →
          format_bytes q = fmt1 (qdivNat q 1024) ++ "KB") ∧
      (¬ q < 1024 → ¬ qdivNat q 1024 < 1024 →
          qdivNat (qdivNat q 1024) 1024 < 1024 →
          format_bytes q = fmt1 (qdivNat (qdivNat q 1024) 1024) ++ "MB") ∧
      (¬ q < 1024 → ¬ qdivNat q 1024 < 1024 →
          ¬ qdivNat (qdivNat q 1024) 1024 < 1024 →
          qdivNat (qdivNat (qdivNat q 1024) 1024) 1024 < 1024 →
          format_bytes q =
            fmt1 (qdivNat (qdivNat (qdivNat q 1024) 1024) 1024) ++ "GB") ∧
      (¬ q < 1024 → ¬ qdivNat q 1024 < 1024 →
          ¬ qdivNat (qdivNat q 1024) 1024 < 1024 →
          ¬ qdivNat (qdivNat (qdivNat q 1024) 1024) 1024 < 1024 →
          qdivNat (qdivNat (qdivNat (qdivNat q 1024) 1024) 1024) 1024 < 1024 →
          format_bytes q =
            fmt1 (qdivNat (qdivNat (qdivNat (qdivNat q 1024) 1024) 1024) 1024)
              ++ "TB") ∧
      (¬ q < 1024 → ¬ qdivNat q 1024 < 1024 →
          ¬ qdivNat (qdivNat q 1024) 1024 < 1024 →
          ¬ qdivNat (qdivNat (qdivNat q 1024) 1024) 1024 < 1024 →
          ¬ qdivNat (qdivNat (qdivNat (qdivNat q 1024) 1024) 1024) 1024 < 1024 →
          format_bytes q =
            fmt1 (qdivNat (qdivNat (qdivNat (qdivNat (qdivNat q 1024) 1024)
              1024) 1024) 1024) ++ "PB")) ∧
    (format_bytes 0 = "0.0B" ∧ format_bytes 1023 = "1023.0B" ∧
      format_bytes 1024 = "1.0KB" ∧ format_bytes 1536 = "1.5KB" ∧
      format_bytes 1099511627776 = "1.0TB" ∧ (1099511627776 : ℚ) = 1024 ^ 4) := by
  refine ⟨fun x => qdivNat_eq x 1024, ?_,
    by decide, by decide, by decide, by decide, by decide, by norm_num⟩
  intro q
  exact ⟨fun h1 => by simp [format_bytes, format_bytes_go, h1],
    fun h1 h2 => by simp [format_bytes, format_bytes_go, h1, h2],
    fun h1 h2 h3 => by simp [format_bytes, format_bytes_go, h1, h2, h3],
    fun h1 h2 h3 h4 => by simp [format_bytes, format_bytes_go, h1, h2, h3, h4],
    fun h1 h2 h3 h4 h5 => by
      simp [format_bytes, format_bytes_go, h1, h2, h3, h4, h5],
    fun h1 h2 h3 h4 h5 => by
      simp [format_bytes, format_bytes_go, h1, h2, h3, h4, h5]⟩

/-- C5 witness: 1536 bytes fall in the KB band and are rendered by the KB
branch of the characterization. -/
theorem c5_format_bytes_witness :
    (¬ (1536 : ℚ) < 1024) ∧ qdivNat (1536 : ℚ) 1024 < 1024 ∧
    format_bytes 1536 = fmt1 (qdivNat (1536 : ℚ) 1024) ++ "KB" :=
  ⟨by decide, by decide, (c5_format_bytes.2.1 1536).2.1 (by decide) (by decide)⟩

/-- C3: the status parser locates lines containing `"Active:"`; on the (one)
such line it splits on whitespace, takes token 1 as the active-state and
token 2 (when present) with surrounding parentheses stripped as the
sub-state; `"   Active: active (running) since ..."` yields
`("active", "running")` and text with no `"Active:"` line yields
`("unknown", "unknown")`. -/
theorem c3_active_line_parsing :
    (∀ out : String,
      (∀ l ∈ splitNl out.toList, containsSeg activeMarker (trimC l) = false) →
      parseActive out = ("unknown", "unknown")) ∧
    (∀ (pre post : List (List Char)) (line p0 p1 p2 : List Char)
      (rest : List (List Char)),
      (∀ l ∈ pre, containsSeg activeMarker (trimC l) = false) →
      (∀ l ∈ post, containsSeg activeMarker (trimC l) = false) →
      containsSeg activeMarker (trimC line) = true →
      tokenizeC (trimC line) = p0 :: p1 :: p2 :: rest →
      parseLines (pre ++ line :: post) =
        (p1.asString, (stripParensC p2).asString)) ∧
    (∀ (pre post : List (List Char)) (line p0 p1 : List Char),
      (∀ l ∈ pre, containsSeg activeMarker (trimC l) = false) →
      (∀ l ∈ post, containsSeg activeMarker (trimC l) = false) →
      containsSeg activeMarker (trimC line) = true →
      tokenizeC (trimC line) = [p0, p1] →
      parseLines (pre ++ line :: post) = (p1.asString, "unknown")) ∧
    parseActive
        "nginx.service - nginx\n   Active: active (running) since Mon 2024\n" =
      ("active", "running") ∧
    get_service_status "nginx"
        (.ok "nginx.service - nginx\n   Active: active (running) since Mon 2024\n") =
      ⟨"nginx", "active", "running"⟩ := by
  refine ⟨?_, ?_, ?_, by decide, by decide⟩
  · intro out h
    exact foldl_statusStep_const _ _ h
  · intro pre post line p0 p1 p2 rest hpre hpost hm ht
    rw [parseLines, List.foldl_append, foldl_statusStep_const _ _ hpre,
      List.foldl_cons, statusStep_three hm ht]
    exact foldl_statusStep_const _ _ hpost
  · intro pre post line p0 p1 hpre hpost hm ht
    rw [parseLines, List.foldl_append, foldl_statusStep_const _ _ hpre,
      List.foldl_cons, statusStep_two hm ht]
    exact foldl_statusStep_const _ _ hpost

/-- C3 witness: the single-match conjunct applied to a concrete two-line
output. -/
theorem c3_active_line_parsing_witness :
    parseLines ["svc header line".toList,
      "   Active: active (running) since Mon".toList] = ("active", "running") :=
  (c3_active_line_parsing.2.1 ["svc header line".toList] []
      "   Active: active (running) since Mon".toList
      "Active:".toList "active".toList "(running)".toList
      ["since".toList, "Mon".toList]
      (by decide) (by decide) (by decide) (by decide)).trans (by decide)

/-- C4 (amended): processes that raise `NoSuchProcess` / `AccessDenied`
during enumeration are silently skipped; the result is sorted descending by
the parsed one-decimal CPU field, has at most 10 entries, each derived from
an enumerated process with `name[:30]`, `user[:15]` and one-decimal
percentage strings; and for 15 processes whose ONE-DECIMAL-FORMATTED CPU
values are pairwise distinct the result has exactly 10 entries strictly
descending.  (For merely raw-distinct CPU values strictness can fail, see
the counterexample.) -/
theorem c4_top_processes :
    (∀ (l₁ l₂ : List (Except PErr ProcInfo)) (e : PErr),
      e = PErr.noSuchProcess ∨ e = PErr.accessDenied →
      buildEntries (l₁ ++ .error e :: l₂) = buildEntries (l₁ ++ l₂)) ∧
    (∀ (l : List (Except PErr ProcInfo)) (res : List ProcEntry),
      topProcesses l = .ok res →
      res.length ≤ 10 ∧
      (res.map entryKey).Pairwise (· ≥ ·) ∧
      (∀ en ∈ res, ∃ p, Except.ok p ∈ l ∧ en = mkEntry p ∧
        en.name = p.name.take 30 ∧ en.user = p.username.take 15 ∧
        en.cpu = fmtPct p.cpu_percent ∧ en.mem = fmtPct p.memory_percent)) ∧
    (∀ raw : List ProcInfo, raw.length = 15 →
      (raw.map (fun p => parseCpu (fmtPct p.cpu_percent))).Nodup →
      topProcesses (raw.map Except.ok) = .ok (sortTake (raw.map mkEntry)) ∧
      (sortTake (raw.map mkEntry)).length = 10 ∧
      ((sortTake (raw.map mkEntry)).map entryKey).Pairwise (· > ·)) := by
  refine ⟨fun l₁ l₂ e he => buildEntries_skip e he l₁ l₂, ?_, ?_⟩
  · intro l res h
    rcases hb : buildEntries l with e | entries
    · rw [topProcesses, hb] at h
      simp [Except.map] at h
    · rw [topProcesses, hb] at h
      simp only [Except.map, Except.ok.injEq] at h
      subst h
      refine ⟨sortTake_length_le entries, sortTake_sorted entries, ?_⟩
      intro en hen
      obtain ⟨p, hp, he⟩ := buildEntries_mem hb en (sortTake_mem en hen)
      subst he
      refine ⟨p, hp, rfl, ?_, ?_, ?_, ?_⟩ <;> simp [mkEntry]
  · intro raw h15 hnd
    refine ⟨by rw [topProcesses, buildEntries_map_ok]; rfl,
      sortTake_length_eq _ (by simp [h15]), sortTake_strict _ ?_⟩
    rw [List.map_map]
    exact hnd

/-- C4 witness: for the 15 processes of `wProcs` (formatted CPU values all
distinct) the pipeline yields exactly 10 entries, strictly descending. -/
theorem c4_top_processes_witness :
    topProcesses (wProcs.map Except.ok) = .ok (sortTake (wProcs.map mkEntry)) ∧
    (sortTake (wProcs.map mkEntry)).length = 10 ∧
    ((sortTake (wProcs.map mkEntry)).map entryKey).Pairwise (· > ·) :=
  c4_top_processes.2.2 wProcs rfl (by decide)

/-- C4 counterexample: `cexProcs` has 15 pairwise-distinct raw CPU
percentages, yet the resulting 10-entry list is NOT strictly descending by
CPU: its first two entries both carry the formatted value `"5.0%"` (the raw
values 5.01 and 5.02 collide after one-decimal formatting, and the stable
sort leaves the smaller raw value first). -/
theorem c4_top_processes_counterexample :
    cexProcs.length = 15 ∧
    (cexProcs.map ProcInfo.cpu_percent).Nodup ∧
    topProcesses (cexProcs.map Except.ok) =
      .ok (sortTake (cexProcs.map mkEntry)) ∧
    (sortTake (cexProcs.map mkEntry)).length = 10 ∧
    ¬ ((sortTake (cexProcs.map mkEntry)).map entryKey).Pairwise (· > ·) ∧
    ((sortTake (cexProcs.map mkEntry)).map ProcEntry.cpu).take 2 =
      ["5.0%", "5.0%"] := by
  refine ⟨rfl, by decide, ?_, by decide, by decide, by decide⟩
  rw [topProcesses, buildEntries_map_ok]
  rfl

end Dashboard
